import Mathlib

/-!
Verification development for the MLflow AI Gateway routing core.

We shallowly embed the Python sources:
  - `mlflow/environment_variables.py` (typed environment variables),
  - `mlflow/gateway/providers/base.py` (provider capability contract),
and, for gateway components whose implementation files are not part of the
source tree (client facade, gateway utils, the Cohere provider, the routes
listing endpoint), definitions modelled from the specification document, each
marked `Modelled from the spec:` in its doc comment.

Python machine-level details are embedded as follows: optional values become
`Option`, raised exceptions become `Except`, Python identity checks (`is`)
become constructor matches on an inductive of Python values, and numeric
request fields (temperature) are embedded as rationals, on which the scaling
arithmetic performed by the adapter is exact.
-/

namespace Mlflow

/-! ### Python values

`_BooleanEnvironmentVariable.__init__` checks its `default` argument with
Python identity (`default is True or default is False or default is None`),
deliberately distinguishing the integers `1`/`0` from the booleans
`True`/`False`.  We embed the relevant fragment of Python's value universe as
an inductive type; identity on these values is constructor equality. -/

inductive PyVal where
  | none : PyVal
  | bool : Bool → PyVal
  | int : Int → PyVal
  | str : String → PyVal
deriving DecidableEq, Repr

/-- The check `default is True or default is False or default is None` from
`_BooleanEnvironmentVariable.__init__` (identity, not equality: `PyVal.int 1`
is a different constructor from `PyVal.bool true`). -/
def isBoolOrNone : PyVal → Bool
  | PyVal.none => true
  | PyVal.bool _ => true
  | _ => false

/-! ### Environment variables (`mlflow/environment_variables.py`) -/

/-- The process environment, as read by `os.getenv`: a partial map from
variable names to string values. -/
def Env := String → Option String

/-- An `_EnvironmentVariable` declared with `type_=int`: a name and a default
(the default may be `None`, embedded as `Option.none`). -/
structure IntEnvVar where
  name : String
  default : Option Int
deriving DecidableEq, Repr

/-- A `_BooleanEnvironmentVariable`: name plus the `default` argument given to
the constructor, kept as a raw Python value so that the constructor-time
validation of `__init__` can be stated. -/
structure BooleanEnvVar where
  name : String
  default : PyVal
deriving DecidableEq, Repr

/-- Constructor `_BooleanEnvironmentVariable.__init__`: raises `ValueError` unless the
default is identically `True`, `False` or `None`. -/
def mkBooleanEnvironmentVariable (name : String) (default : PyVal) :
    Except String BooleanEnvVar :=
  if isBoolOrNone default then
    Except.ok ⟨name, default⟩
  else
    Except.error (name ++ " default value must be one of [True, False, None]")

/-- Value of a list of decimal digit characters, `Option.none` when the list
is empty or contains a non-digit. -/
def decimalDigitsValue (l : List Char) : Option Nat :=
  if l ≠ [] ∧ l.all Char.isDigit then
    Option.some (l.foldl (fun a c => a * 10 + (c.toNat - 48)) 0)
  else
    Option.none

/-- Whitespace stripping done by Python's `int(str)` conversion, on character
lists. -/
def stripWhitespace (l : List Char) : List Char :=
  ((l.dropWhile Char.isWhitespace).reverse.dropWhile Char.isWhitespace).reverse

/-- Python's `int(str)` conversion on the strings this development needs:
surrounding whitespace is stripped, an optional sign is followed by a
non-empty run of decimal digits; everything else fails (raises `ValueError`
in Python, `Option.none` here). -/
def pyIntOfString (s : String) : Option Int :=
  match stripWhitespace s.data with
  | '+' :: rest => (decimalDigitsValue rest).map Int.ofNat
  | '-' :: rest => (decimalDigitsValue rest).map (fun n => -(n : Int))
  | l => (decimalDigitsValue l).map Int.ofNat

/-- Method `_EnvironmentVariable.get` at type `int`: a defined raw value is converted
with `int(...)`; a conversion failure raises `ValueError` (never falls back to
the default); an undefined variable yields the default. -/
def IntEnvVar.get (v : IntEnvVar) (env : Env) : Except String (Option Int) :=
  match env v.name with
  | Option.none => Except.ok v.default
  | Option.some raw =>
    match pyIntOfString raw with
    | Option.some n => Except.ok (Option.some n)
    | Option.none =>
      Except.error ("Failed to convert " ++ raw ++ " to int for " ++ v.name)

/-- The boolean default as an `Option Bool`, defined on the defaults that
`__init__` accepts. -/
def pyValAsOptBool : PyVal → Option Bool
  | PyVal.bool b => Option.some b
  | _ => Option.none

/-- Python `str.lower()` on the ASCII configuration strings involved:
character-wise lowercasing. -/
def pyToLower (s : String) : String :=
  String.mk (s.data.map Char.toLower)

/-- Method `_BooleanEnvironmentVariable.get`: an undefined variable yields the
default; a defined value is lowercased and must be one of
`"true"`, `"false"`, `"1"`, `"0"`, otherwise `ValueError` is raised; the
result is whether the lowercased value is `"true"` or `"1"`. -/
def BooleanEnvVar.get (v : BooleanEnvVar) (env : Env) :
    Except String (Option Bool) :=
  match env v.name with
  | Option.none => Except.ok (pyValAsOptBool v.default)
  | Option.some raw =>
    let lowercased := pyToLower raw
    if lowercased == "true" || lowercased == "false" ||
        lowercased == "1" || lowercased == "0" then
      Except.ok (Option.some (lowercased == "true" || lowercased == "1"))
    else
      Except.error (v.name ++ " value must be one of [true, false, 1, 0]" ++
        " (case-insensitive), but got " ++ raw)

/-! ### URL parsing and gateway URI validation

The gateway URI validator (`mlflow.gateway.utils`) is not part of the source
tree; per the spec it parses the URI and requires a non-empty scheme and a
non-empty network location.  We embed the scheme/netloc fragment of Python's
`urllib.parse.urlparse`. -/

/-- Characters allowed in a URL scheme (`urllib.parse.scheme_chars`). -/
def isSchemeChar (c : Char) : Bool :=
  c.isAlpha || c.isDigit || c == '+' || c == '-' || c == '.'

/-- Split a character list at the first `':'`, returning the parts before and
after it, or `Option.none` when there is no colon. -/
def splitAtColon : List Char → Option (List Char × List Char)
  | [] => Option.none
  | c :: rest =>
    if c = ':' then Option.some ([], rest)
    else (splitAtColon rest).map (fun p => (c :: p.1, p.2))

/-- Scheme extraction of `urlsplit`: a non-empty prefix of scheme characters
starting with a letter, up to a `':'`, is the (lowercased) scheme; otherwise
the scheme is empty and the whole input remains. -/
def urlSplitScheme (url : List Char) : List Char × List Char :=
  match splitAtColon url with
  | Option.some (before, after) =>
    if before ≠ [] ∧ (before.headD ('a')).isAlpha ∧ before.all isSchemeChar then
      (before.map Char.toLower, after)
    else
      ([], url)
  | Option.none => ([], url)

/-- Netloc extraction of `urlsplit`: after a leading `"//"`, the netloc runs
up to the next `'/'`, `'?'` or `'#'`. -/
def urlSplitNetloc : List Char → List Char
  | [] => []
  | c :: rest =>
    if c = '/' ∨ c = '?' ∨ c = '#' then []
    else c :: urlSplitNetloc rest

/-- The scheme/netloc fragment of a parsed URL. -/
structure UrlParts where
  scheme : String
  netloc : String
deriving DecidableEq, Repr

/-- Python `urllib.parse.urlparse`, restricted to the scheme and netloc components
(the only ones the gateway validator inspects). -/
def pyUrlparse (url : String) : UrlParts :=
  let sp := urlSplitScheme url.data
  let netloc :=
    match sp.2 with
    | '/' :: '/' :: r => urlSplitNetloc r
    | _ => []
  ⟨String.mk sp.1, String.mk netloc⟩

/-- Modelled from the spec: the gateway URI check of `mlflow.gateway.utils`
(file not in the source tree) — a URI is valid exactly when it parses to a
non-empty scheme and a non-empty network location (the "four-part check"). -/
def isValidGatewayUri (uri : String) : Bool :=
  (pyUrlparse uri).scheme != "" && (pyUrlparse uri).netloc != ""

/-- Modelled from the spec: `set_gateway_uri` validation — an invalid URI
fails with an invalid-configuration error. -/
def validateGatewayUri (uri : String) : Except String Unit :=
  if isValidGatewayUri uri then
    Except.ok ()
  else
    Except.error ("The gateway uri provided is missing required elements: " ++ uri)

/-! ### Gateway schema layer

Normalized request/response types for the three route types, following the
shapes exercised by the test suite (`llm/v1/chat`, `llm/v1/completions`,
`llm/v1/embeddings`).  Nullable fields are `Option`; numeric sampling
parameters and embedding coordinates are rationals. -/

inductive RouteType where
  | chat
  | completions
  | embeddings
deriving DecidableEq, Repr

/-- Normalized completions request: prompt plus optional sampling
parameters (canonical temperature scale 0–1). -/
structure CompletionsRequest where
  prompt : String
  temperature : Option ℚ := Option.none
  maxTokens : Option Nat := Option.none
deriving DecidableEq, Repr

/-- Response metadata attached to every normalized response: token counts are
nullable, absent vendor counts stay `Option.none`. -/
structure Metadata where
  inputTokens : Option Nat
  outputTokens : Option Nat
  totalTokens : Option Nat
  model : String
  routeType : RouteType
deriving DecidableEq, Repr

structure CompletionsCandidate where
  text : String
  finishReason : Option String
deriving DecidableEq, Repr

structure CompletionsResponse where
  candidates : List CompletionsCandidate
  metadata : Metadata
deriving DecidableEq, Repr

structure ChatMessage where
  role : String
  content : String
deriving DecidableEq, Repr

structure ChatRequest where
  messages : List ChatMessage
deriving DecidableEq, Repr

structure ChatResponse where
  candidates : List ChatMessage
  metadata : Metadata
deriving DecidableEq, Repr

structure EmbeddingsRequest where
  text : List String
deriving DecidableEq, Repr

structure EmbeddingsResponse where
  embeddings : List (List ℚ)
  metadata : Metadata
deriving DecidableEq, Repr

/-- Config `RouteConfig`: provider + model + adapter-specific settings, bound to a
provider at construction (`mlflow/gateway/config.py` shape as used by the
tests; the opaque per-provider config map is irrelevant to the claims and is
omitted). -/
structure RouteConfig where
  name : String
  routeType : RouteType
  providerName : String
  modelName : String
deriving DecidableEq, Repr

/-! ### Provider capability contract (`mlflow/gateway/providers/base.py`)

`BaseProvider` stores its `RouteConfig` and defines `chat`, `completions` and
`embeddings` methods whose bodies are `raise NotImplementedError`; a concrete
provider overrides the methods it supports.  We embed a provider as its
config together with an optional implementation per capability
(`Option.none` = the inherited `raise NotImplementedError` body).  The
outbound vendor POST inside an overridden method is abstracted as the
function supplied for that capability. -/

inductive GatewayError where
  | routeNotFound
  | notImplemented
  | invalidConfiguration (msg : String)
deriving DecidableEq, Repr

structure Provider where
  config : RouteConfig
  supportedRouteTypes : List RouteType
  chatImpl : Option (ChatRequest → ChatResponse)
  completionsImpl : Option (CompletionsRequest → CompletionsResponse)
  embeddingsImpl : Option (EmbeddingsRequest → EmbeddingsResponse)

/-- Constructor `BaseProvider.__init__`: stores the config; performs no capability
validation, so construction always succeeds. -/
def Provider.init (config : RouteConfig) (supported : List RouteType)
    (chatImpl : Option (ChatRequest → ChatResponse))
    (completionsImpl : Option (CompletionsRequest → CompletionsResponse))
    (embeddingsImpl : Option (EmbeddingsRequest → EmbeddingsResponse)) :
    Except GatewayError Provider :=
  Except.ok ⟨config, supported, chatImpl, completionsImpl, embeddingsImpl⟩

/-- Invoking `completions`: the inherited body raises `NotImplementedError`
at call time. -/
def Provider.completions (p : Provider) (payload : CompletionsRequest) :
    Except GatewayError CompletionsResponse :=
  match p.completionsImpl with
  | Option.none => Except.error GatewayError.notImplemented
  | Option.some f => Except.ok (f payload)

/-- Invoking `chat`: the inherited body raises `NotImplementedError` at call
time. -/
def Provider.chat (p : Provider) (payload : ChatRequest) :
    Except GatewayError ChatResponse :=
  match p.chatImpl with
  | Option.none => Except.error GatewayError.notImplemented
  | Option.some f => Except.ok (f payload)

/-- Invoking `embeddings`: the inherited body raises `NotImplementedError` at
call time. -/
def Provider.embeddings (p : Provider) (payload : EmbeddingsRequest) :
    Except GatewayError EmbeddingsResponse :=
  match p.embeddingsImpl with
  | Option.none => Except.error GatewayError.notImplemented
  | Option.some f => Except.ok (f payload)

/-- Modelled from the spec: the dispatcher's route registry lookup (server
core, not in the source tree) — resolve a route name to its provider. -/
def lookupProvider (registry : List (String × Provider)) (name : String) :
    Option Provider :=
  (registry.find? (fun e => e.1 == name)).map (fun e => e.2)

/-- Modelled from the spec: dispatcher handling of a completions request —
an unknown route name is a terminal route-not-found failure; otherwise the
resolved provider's `completions` capability is invoked. -/
def dispatchCompletions (registry : List (String × Provider)) (name : String)
    (payload : CompletionsRequest) : Except GatewayError CompletionsResponse :=
  match lookupProvider registry name with
  | Option.none => Except.error GatewayError.routeNotFound
  | Option.some p => p.completions payload

/-! ### Cohere provider adapter

`mlflow/gateway/providers/cohere.py` is not part of the source tree; only its
tests are.  Modelled from the spec: the adapter builds the vendor payload
from the normalized request, multiplying the canonical temperature by the
fixed factor 5 (vendor scale 0–5), and maps the vendor response back into the
canonical response, with token counts null because the vendor does not report
them. -/

/-- Outbound Cohere completions payload. -/
structure CohereCompletionsPayload where
  prompt : String
  temperature : Option ℚ
  maxTokens : Option Nat
deriving DecidableEq, Repr

/-- One generation in a Cohere completions response. -/
structure CohereGeneration where
  id : String
  text : String
deriving DecidableEq, Repr

/-- Cohere completions response body: it carries no token-count fields. -/
structure CohereCompletionsResponse where
  id : String
  generations : List CohereGeneration
  prompt : String
deriving DecidableEq, Repr

/-- Modelled from the spec: request translation of the Cohere provider —
fields are copied, and the canonical temperature is multiplied by exactly 5
before sending. -/
def cohereCompletionsRequest (p : CompletionsRequest) : CohereCompletionsPayload :=
  { prompt := p.prompt
    temperature := p.temperature.map (fun t => t * 5)
    maxTokens := p.maxTokens }

/-- Modelled from the spec: response translation of the Cohere provider —
generation texts become candidates; the vendor reports no token counts, so
the metadata token fields are null, never 0 or an empty value. -/
def cohereCompletionsResponseToPayload (modelName : String)
    (r : CohereCompletionsResponse) : CompletionsResponse :=
  { candidates := r.generations.map (fun g => ⟨g.text, Option.none⟩)
    metadata :=
      { inputTokens := Option.none
        outputTokens := Option.none
        totalTokens := Option.none
        model := modelName
        routeType := RouteType.completions } }

/-- Modelled from the spec: the Cohere provider's `completions` method —
translate the request, perform the single outbound POST (abstracted as
`vendor`), translate the response. -/
def cohereCompletions (vendor : CohereCompletionsPayload → CohereCompletionsResponse)
    (config : RouteConfig) (payload : CompletionsRequest) : CompletionsResponse :=
  cohereCompletionsResponseToPayload config.modelName
    (vendor (cohereCompletionsRequest payload))

/-! ### Route registry, route retrieval and pagination

The client facade and the routes listing endpoint are not in the source
tree; the definitions below are modelled from the spec (§4.4, §6) and the
HTTP surface exercised by the tests. -/

structure RouteModelInfo where
  name : String
  provider : String
deriving DecidableEq, Repr

/-- A `Route` descriptor as returned by the gateway. -/
structure Route where
  name : String
  routeType : RouteType
  model : RouteModelInfo
  routeUrl : String
deriving DecidableEq, Repr

/-- A transport-layer HTTP error (`requests.exceptions.HTTPError`): status
code plus message. -/
structure HttpError where
  status : Nat
  message : String
deriving DecidableEq, Repr

/-- An HTTP response from the gateway's single-route endpoint. -/
structure RouteHttpResponse where
  status : Nat
  routeBody : Option Route
deriving DecidableEq, Repr

/-- Modelled from the spec: server handler for
`GET /api/2.0/gateway/routes/{name}` — the route descriptor, or a 404
response when the name is absent from the registry. -/
def serverGetRouteHandler (routes : List Route) (name : String) :
    RouteHttpResponse :=
  match routes.find? (fun r => r.name == name) with
  | Option.some r => ⟨200, Option.some r⟩
  | Option.none => ⟨404, Option.none⟩

/-- Transport `response.raise_for_status()`: a status of 400 or
above raises `HTTPError` carrying that status. -/
def raiseForStatus (resp : RouteHttpResponse) :
    Except HttpError RouteHttpResponse :=
  if 400 ≤ resp.status then
    Except.error ⟨resp.status, "Client Error: Not Found"⟩
  else
    Except.ok resp

/-- Modelled from the spec: the client facade's `get_route` — a single
request; transport errors (including the 404 from a missing route) propagate
unmodified, a successful response body is parsed into a `Route`. -/
def clientGetRoute (routes : List Route) (name : String) :
    Except HttpError Route :=
  match raiseForStatus (serverGetRouteHandler routes name) with
  | Except.error e => Except.error e
  | Except.ok resp =>
    match resp.routeBody with
    | Option.some r => Except.ok r
    | Option.none => Except.error ⟨500, "malformed response"⟩

/-- Modelled from the spec: one page of
`GET /api/2.0/gateway/routes/?page_token=...` — at most `pageSize` routes
starting at the (opaque, index-valued) token, plus the next token, absent
exactly when no routes remain. -/
def searchRoutesPage (routes : List Route) (pageSize : Nat) (pageToken : Nat) :
    List Route × Option Nat :=
  ((routes.drop pageToken).take pageSize,
    if pageToken + pageSize < routes.length then
      Option.some (pageToken + pageSize)
    else
      Option.none)

/-- Modelled from the spec: the facade's search-all traversal starting from a
token — fetch a page, then follow the continuation token until it is absent.
The result pairs the collected routes with the number of page fetches
performed.  (The guard on the recursive call is the termination measure; for
a positive page size it always holds when a next token is returned.) -/
def searchAllRoutesFrom (routes : List Route) (pageSize : Nat) (tok : Nat) :
    List Route × Nat :=
  let pr := searchRoutesPage routes pageSize tok
  match pr.2 with
  | Option.none => (pr.1, 1)
  | Option.some t =>
    if h : routes.length - t < routes.length - tok then
      let rest := searchAllRoutesFrom routes pageSize t
      (pr.1 ++ rest.1, rest.2 + 1)
    else
      (pr.1, 1)
termination_by routes.length - tok

/-- Modelled from the spec: `search_routes` with no token in the fluent API —
the full traversal starts at the beginning of the listing. -/
def searchAllRoutes (routes : List Route) (pageSize : Nat) : List Route × Nat :=
  searchAllRoutesFrom routes pageSize 0

/-- The gateway server's state: the route registry, immutable after load. -/
structure GatewayState where
  routes : List Route
deriving DecidableEq, Repr

/-- Modelled from the spec: a full search-all call against a running gateway
— the handler only reads the registry, so the state it returns is the state
it received. -/
def searchAllStateful (s : GatewayState) (pageSize : Nat) :
    List Route × GatewayState :=
  ((searchAllRoutes s.routes pageSize).1, s)

/-! ### Process-wide gateway URI (`mlflow.gateway.utils`, client facade)

Modelled from the spec: a resettable process-wide cell holding the gateway
URI, a setter/getter pair, and the client's resolution order: explicit
argument, then the value stored by the setter, then the environment
variable `MLFLOW_GATEWAY_URI`. -/

structure GatewayUriState where
  gatewayUri : Option String
deriving DecidableEq, Repr

/-- Modelled from the spec: `set_gateway_uri` — validates the URI, then
stores it in the process-wide cell (replacing any previous value). -/
def setGatewayUri (_s : GatewayUriState) (uri : String) :
    Except String GatewayUriState :=
  match validateGatewayUri uri with
  | Except.error e => Except.error e
  | Except.ok _ => Except.ok ⟨Option.some uri⟩

/-- Modelled from the spec: `get_gateway_uri` — the stored process-wide
value if one was set, else the environment variable, else an error that no
gateway URI has been configured. -/
def getGatewayUri (s : GatewayUriState) (env : Env) : Except String String :=
  match s.gatewayUri with
  | Option.some u => Except.ok u
  | Option.none =>
    match env ("MLFLOW_GATEWAY_URI") with
    | Option.some u => Except.ok u
    | Option.none => Except.error ("No Gateway server uri has been set.")

/-- Modelled from the spec: URI resolution in `MlflowGatewayClient.__init__`
— an explicit `gateway_uri` argument is used as is; otherwise resolution
falls through to `get_gateway_uri`. -/
def resolveGatewayUri (explicitUri : Option String) (s : GatewayUriState)
    (env : Env) : Except String String :=
  match explicitUri with
  | Option.some u => Except.ok u
  | Option.none => getGatewayUri s env

/-! ### Sample values used by concrete witnesses -/

/-- A sample route descriptor mirroring the completions route of the basic
test configuration. -/
def sampleRoute1 : Route :=
  ⟨"completions", RouteType.completions, ⟨"text-davinci-003", "openai"⟩,
    "http://gateway.org/gateway/completions/invocations"⟩

/-- A sample route descriptor mirroring the chat route of the basic test
configuration. -/
def sampleRoute2 : Route :=
  ⟨"chat", RouteType.chat, ⟨"gpt-3.5-turbo", "openai"⟩,
    "http://gateway.org/gateway/chat/invocations"⟩

/-- A provider built directly on the base class with no capability
overridden: every operation keeps its inherited body. -/
def noCapabilityProvider : Provider :=
  ⟨⟨"completions", RouteType.completions, "test-provider", "test-model"⟩, [],
    Option.none, Option.none, Option.none⟩

theorem searchRoutesPage_len_le (routes : List Route) (P tok : Nat) :
    (searchRoutesPage routes P tok).1.length ≤ P := by
  simp only [searchRoutesPage]
  rw [List.length_take]
  exact Nat.min_le_left _ _

theorem searchRoutesPage_token_none_iff (routes : List Route) (P tok : Nat) :
    (searchRoutesPage routes P tok).2 = Option.none ↔ routes.drop (tok + P) = [] := by
  simp only [searchRoutesPage]
  rw [List.drop_eq_nil_iff]
  constructor
  · intro h
    by_contra hc
    simp [Nat.lt_of_not_le hc] at h
  · intro h
    simp [Nat.not_lt_of_le h]

theorem searchAllRoutesFrom_spec (routes : List Route) (P : Nat) (hP : 0 < P) :
    ∀ (fuel tok : Nat), routes.length - tok ≤ fuel →
      (searchAllRoutesFrom routes P tok).1 = routes.drop tok
      ∧ (searchAllRoutesFrom routes P tok).2
          = max 1 ((routes.length - tok + P - 1) / P) := by
  intro fuel
  induction fuel with
  | zero =>
    intro tok hf
    have hle : routes.length ≤ tok := by omega
    have hnext : ¬ tok + P < routes.length := by omega
    rw [searchAllRoutesFrom.eq_def]
    simp only [searchRoutesPage, hnext, if_false]
    constructor
    · exact List.take_of_length_le (by rw [List.length_drop]; omega)
    · have hd : (routes.length - tok + P - 1) / P < 2 := by
        rw [Nat.div_lt_iff_lt_mul hP]; omega
      omega
  | succ m ih =>
    intro tok hf
    by_cases hlt : tok + P < routes.length
    · have hguard : routes.length - (tok + P) < routes.length - tok := by omega
      rw [searchAllRoutesFrom.eq_def]
      simp only [searchRoutesPage, hlt, if_true, hguard, dif_pos]
      obtain ⟨ih1, ih2⟩ := ih (tok + P) (by omega)
      constructor
      · rw [ih1]
        have hdd : routes.drop (tok + P) = (routes.drop tok).drop P := by
          rw [List.drop_drop]
        rw [hdd, List.take_append_drop]
      · rw [ih2]
        have h1 : routes.length - (tok + P) + P - 1 = routes.length - tok - 1 := by omega
        rw [h1]
        have h2 : 1 ≤ (routes.length - tok - 1) / P := by
          rw [Nat.one_le_div_iff hP]; omega
        have h3 : routes.length - tok + P - 1 = (routes.length - tok - 1) + P := by omega
        rw [h3, Nat.add_div_right _ hP]
        omega
    · rw [searchAllRoutesFrom.eq_def]
      simp only [searchRoutesPage, hlt, if_false]
      constructor
      · exact List.take_of_length_le (by rw [List.length_drop]; omega)
      · have hd : (routes.length - tok + P - 1) / P < 2 := by
          rw [Nat.div_lt_iff_lt_mul hP]; omega
        omega

theorem searchAllRoutes_spec (routes : List Route) (P : Nat) (hP : 0 < P) :
    (searchAllRoutes routes P).1 = routes
    ∧ (searchAllRoutes routes P).2 = max 1 ((routes.length + P - 1) / P) := by
  obtain ⟨h1, h2⟩ := searchAllRoutesFrom_spec routes P hP (routes.length) 0 (by omega)
  refine ⟨?_, ?_⟩
  · rw [searchAllRoutes, h1, List.drop_zero]
  · rw [searchAllRoutes, h2]
    norm_num

/-! ### Claim theorems -/

/-- C10: constructing a boolean environment variable with a default that is
not identically `True`, `False` or `None` — including the integers `1` and
`0` — raises `ValueError` at definition time, so every successfully defined
boolean environment variable has a default among `True`, `False`, `None`. -/
theorem isBoolOrNone_iff (d : PyVal) :
    isBoolOrNone d = true ↔ (d = PyVal.bool true ∨ d = PyVal.bool false ∨ d = PyVal.none) := by
  cases d with
  | none => simp [isBoolOrNone]
  | bool b => cases b <;> simp [isBoolOrNone]
  | int n => simp [isBoolOrNone]
  | str s => simp [isBoolOrNone]

/-- C10: constructing a boolean environment variable with a default that is
not identically `True`, `False` or `None` — including the integers `1` and
`0` — raises `ValueError` at definition time, so every successfully defined
boolean environment variable has a default among `True`, `False`, `None`. -/
theorem boolean_env_var_default_invariant :
    (∀ (name : String) (d : PyVal),
        (∃ v, mkBooleanEnvironmentVariable name d = Except.ok v) ↔
          (d = PyVal.bool true ∨ d = PyVal.bool false ∨ d = PyVal.none))
    ∧ (∀ name : String,
        ∃ e, mkBooleanEnvironmentVariable name (PyVal.int 1) = Except.error e)
    ∧ (∀ name : String,
        ∃ e, mkBooleanEnvironmentVariable name (PyVal.int 0) = Except.error e)
    ∧ (∀ (name : String) (d : PyVal) (v : BooleanEnvVar),
        mkBooleanEnvironmentVariable name d = Except.ok v →
          v.default = PyVal.bool true ∨ v.default = PyVal.bool false
            ∨ v.default = PyVal.none) := by
  refine ⟨?_, fun name => ⟨_, rfl⟩, fun name => ⟨_, rfl⟩, ?_⟩
  · intro name d
    rw [← isBoolOrNone_iff]
    constructor
    · rintro ⟨v, hv⟩
      by_contra hc
      unfold mkBooleanEnvironmentVariable at hv
      rw [if_neg hc] at hv
      exact absurd hv (by simp)
    · intro hb
      refine ⟨⟨name, d⟩, ?_⟩
      unfold mkBooleanEnvironmentVariable
      rw [if_pos hb]
  · intro name d v hv
    unfold mkBooleanEnvironmentVariable at hv
    by_cases hb : isBoolOrNone d = true
    · rw [if_pos hb] at hv
      cases hv
      exact (isBoolOrNone_iff d).mp hb
    · rw [if_neg hb] at hv
      exact absurd hv (by simp)

/-- C10 witness: the invariant applied at the concrete default `True`. -/
theorem boolean_env_var_default_invariant_witness :
    mkBooleanEnvironmentVariable ("MLFLOW_TESTING") (PyVal.bool true)
        = Except.ok ⟨"MLFLOW_TESTING", PyVal.bool true⟩
    ∧ ((⟨"MLFLOW_TESTING", PyVal.bool true⟩ : BooleanEnvVar).default = PyVal.bool true
        ∨ (⟨"MLFLOW_TESTING", PyVal.bool true⟩ : BooleanEnvVar).default = PyVal.bool false
        ∨ (⟨"MLFLOW_TESTING", PyVal.bool true⟩ : BooleanEnvVar).default = PyVal.none) :=
  ⟨rfl, boolean_env_var_default_invariant.2.2.2 ("MLFLOW_TESTING") (PyVal.bool true) _ rfl⟩

/-- C8: reading a defined environment value that cannot be coerced to the
declared type (invalid integer string, or boolean string outside
true/false/1/0) raises an error instead of silently returning the default;
an undefined variable returns the documented default. -/
theorem env_var_get_invalid_raises_undefined_defaults :
    (∀ (v : IntEnvVar) (env : Env), env v.name = Option.none →
        v.get env = Except.ok v.default)
    ∧ (∀ (v : IntEnvVar) (env : Env) (raw : String), env v.name = Option.some raw →
        pyIntOfString raw = Option.none → ∃ e, v.get env = Except.error e)
    ∧ (∀ (v : IntEnvVar) (env : Env) (raw : String) (n : Int),
        env v.name = Option.some raw →
        pyIntOfString raw = Option.some n → v.get env = Except.ok (Option.some n))
    ∧ (∀ (v : BooleanEnvVar) (env : Env), env v.name = Option.none →
        v.get env = Except.ok (pyValAsOptBool v.default))
    ∧ (∀ (v : BooleanEnvVar) (env : Env) (raw : String),
        env v.name = Option.some raw →
        (pyToLower raw == "true" || pyToLower raw == "false"
          || pyToLower raw == "1" || pyToLower raw == "0") = false →
        ∃ e, v.get env = Except.error e) := by
  refine ⟨?_, ?_, ?_, ?_, ?_⟩
  · intro v env h
    unfold IntEnvVar.get
    rw [h]
  · intro v env raw h hbad
    unfold IntEnvVar.get
    rw [h]
    simp [hbad]
  · intro v env raw n h hok
    unfold IntEnvVar.get
    rw [h]
    simp [hok]
  · intro v env h
    unfold BooleanEnvVar.get
    rw [h]
  · intro v env raw h hbad
    unfold BooleanEnvVar.get
    rw [h]
    simp [hbad]

/-- C8 witness: the integer-typed HTTP retries variable and the boolean AWS
SigV4 variable, at an undefined environment, an unparsable integer, and an
out-of-range boolean string. -/
theorem env_var_get_invalid_raises_undefined_defaults_witness :
    IntEnvVar.get ⟨"MLFLOW_HTTP_REQUEST_MAX_RETRIES", Option.some 5⟩
        (fun _ => Option.none) = Except.ok (Option.some 5)
    ∧ (∃ e, IntEnvVar.get ⟨"MLFLOW_HTTP_REQUEST_MAX_RETRIES", Option.some 5⟩
        (fun _ => Option.some ("not-a-number")) = Except.error e)
    ∧ IntEnvVar.get ⟨"MLFLOW_HTTP_REQUEST_MAX_RETRIES", Option.some 5⟩
        (fun _ => Option.some (" 7 ")) = Except.ok (Option.some 7)
    ∧ (∃ e, BooleanEnvVar.get ⟨"MLFLOW_TRACKING_AWS_SIGV4", PyVal.bool false⟩
        (fun _ => Option.some ("yes")) = Except.error e)
    ∧ BooleanEnvVar.get ⟨"MLFLOW_TRACKING_AWS_SIGV4", PyVal.bool false⟩
        (fun _ => Option.none) = Except.ok (Option.some false) := by
  refine ⟨?_, ?_, ?_, ?_, ?_⟩
  · exact env_var_get_invalid_raises_undefined_defaults.1 _ _ rfl
  · exact env_var_get_invalid_raises_undefined_defaults.2.1 _ _
      ("not-a-number") rfl (by decide)
  · exact env_var_get_invalid_raises_undefined_defaults.2.2.1 _ _ (" 7 ") 7 rfl (by decide)
  · exact env_var_get_invalid_raises_undefined_defaults.2.2.2.2 _ _ ("yes") rfl (by decide)
  · exact env_var_get_invalid_raises_undefined_defaults.2.2.2.1 _ _ rfl

/-- C3 counterexample: the URI "ftp://x" parses to non-empty scheme "ftp" and
non-empty netloc "x", so the four-part validation accepts it — it does not
fail configuration validation as the claim states. -/
theorem gateway_uri_ftp_with_host_accepted_counterexample :
    validateGatewayUri ("ftp://x") = Except.ok ()
    ∧ (pyUrlparse ("ftp://x")).scheme = "ftp"
    ∧ (pyUrlparse ("ftp://x")).netloc = "x" :=
  ⟨rfl, by decide, by decide⟩

/-- C3 (amended): gateway URI validation accepts exactly the URIs that parse
to a non-empty scheme and a non-empty network location; "gateway.org:8000",
"http:/x" and "ftp://" (the scheme-only form the tests exercise) fail with an
invalid-configuration error while "http://gateway.org" succeeds ("ftp://x",
having both parts, also succeeds). -/
theorem gateway_uri_validation_scheme_netloc :
    (∀ uri : String, isValidGatewayUri uri = true ↔
        ((pyUrlparse uri).scheme ≠ "" ∧ (pyUrlparse uri).netloc ≠ ""))
    ∧ (∃ e, validateGatewayUri ("gateway.org:8000") = Except.error e)
    ∧ (∃ e, validateGatewayUri ("http:/x") = Except.error e)
    ∧ (∃ e, validateGatewayUri ("ftp://") = Except.error e)
    ∧ validateGatewayUri ("http://gateway.org") = Except.ok () := by
  refine ⟨?_, ⟨_, rfl⟩, ⟨_, rfl⟩, ⟨_, rfl⟩, rfl⟩
  intro uri
  unfold isValidGatewayUri
  rw [Bool.and_eq_true, bne_iff_ne, bne_iff_ne]

/-- C4 counterexample: a provider that implements no capability is
constructed without any signal (the base constructor performs no
validation), and the not-implemented signal appears only when the operation
is invoked — so the signal is raised at call time, not at
registration/validation time as the claim states. -/
theorem provider_missing_capability_registration_succeeds_counterexample :
    Provider.init ⟨"completions", RouteType.completions, "test-provider", "test-model"⟩ []
        Option.none Option.none Option.none = Except.ok noCapabilityProvider
    ∧ noCapabilityProvider.completions ⟨"hello", Option.none, Option.none⟩
        = Except.error GatewayError.notImplemented :=
  ⟨rfl, rfl⟩

/-- C4 (amended): invoking an operation whose capability the provider does
not implement fails at call time with the explicit not-implemented signal
(the inherited NotImplementedError body — a raise, not a silent failure),
distinct from the route-not-found signal; an unknown route name instead
fails with route-not-found. -/
theorem unsupported_capability_not_implemented_at_call :
    (∀ (p : Provider) (payload : CompletionsRequest), p.completionsImpl = Option.none →
        p.completions payload = Except.error GatewayError.notImplemented)
    ∧ (∀ (p : Provider) (payload : ChatRequest), p.chatImpl = Option.none →
        p.chat payload = Except.error GatewayError.notImplemented)
    ∧ (∀ (p : Provider) (payload : EmbeddingsRequest), p.embeddingsImpl = Option.none →
        p.embeddings payload = Except.error GatewayError.notImplemented)
    ∧ (∀ (registry : List (String × Provider)) (name : String)
        (payload : CompletionsRequest) (p : Provider),
        lookupProvider registry name = Option.some p →
        p.completionsImpl = Option.none →
        dispatchCompletions registry name payload
          = Except.error GatewayError.notImplemented)
    ∧ (∀ (registry : List (String × Provider)) (name : String)
        (payload : CompletionsRequest),
        lookupProvider registry name = Option.none →
        dispatchCompletions registry name payload
          = Except.error GatewayError.routeNotFound)
    ∧ GatewayError.notImplemented ≠ GatewayError.routeNotFound := by
  refine ⟨?_, ?_, ?_, ?_, ?_, by simp⟩
  · intro p payload h
    unfold Provider.completions
    rw [h]
  · intro p payload h
    unfold Provider.chat
    rw [h]
  · intro p payload h
    unfold Provider.embeddings
    rw [h]
  · intro registry name payload p hl h
    unfold dispatchCompletions
    rw [hl]
    simp [Provider.completions, h]
  · intro registry name payload hl
    unfold dispatchCompletions
    rw [hl]

/-- C4 witness: a registry holding the capability-less provider — invoking
its completions route yields not-implemented; an absent route name yields
route-not-found. -/
theorem unsupported_capability_not_implemented_at_call_witness :
    dispatchCompletions [("completions", noCapabilityProvider)] ("completions")
        ⟨"hello", Option.none, Option.none⟩ = Except.error GatewayError.notImplemented
    ∧ dispatchCompletions [("completions", noCapabilityProvider)] ("missing")
        ⟨"hello", Option.none, Option.none⟩ = Except.error GatewayError.routeNotFound :=
  ⟨unsupported_capability_not_implemented_at_call.2.2.2.1 _ _ _ noCapabilityProvider rfl rfl,
    unsupported_capability_not_implemented_at_call.2.2.2.2.1 _ _ _ rfl⟩

/-- C1: a completions request carrying temperature t routed through the
Cohere provider produces an outbound vendor payload whose temperature equals
exactly t multiplied by 5. -/
theorem cohere_completions_temperature_scaled_by_five (p : CompletionsRequest) (t : ℚ)
    (h : p.temperature = Option.some t) :
    (cohereCompletionsRequest p).temperature = Option.some (t * 5) := by
  unfold cohereCompletionsRequest
  rw [h]
  rfl

/-- C1 witness: an input temperature of 1/2 yields an outbound temperature of
exactly 5/2. -/
theorem cohere_completions_temperature_scaled_by_five_witness :
    (⟨"This is a test", Option.some ((1 : ℚ)/2), Option.none⟩ :
        CompletionsRequest).temperature = Option.some ((1 : ℚ)/2)
    ∧ (cohereCompletionsRequest
        ⟨"This is a test", Option.some ((1 : ℚ)/2), Option.none⟩).temperature
        = Option.some ((5 : ℚ)/2) := by
  refine ⟨rfl, ?_⟩
  rw [cohere_completions_temperature_scaled_by_five _ ((1 : ℚ)/2) rfl]
  norm_num

/-- C5: the Cohere vendor response reports no token counts, and the
corresponding metadata fields of every translated response are null — never
0 and never an empty value. -/
theorem cohere_missing_token_counts_are_null :
    ∀ (modelName : String) (r : CohereCompletionsResponse),
      ((cohereCompletionsResponseToPayload modelName r).metadata.inputTokens = Option.none
        ∧ (cohereCompletionsResponseToPayload modelName r).metadata.outputTokens = Option.none
        ∧ (cohereCompletionsResponseToPayload modelName r).metadata.totalTokens = Option.none)
      ∧ ∀ (vendor : CohereCompletionsPayload → CohereCompletionsResponse)
          (config : RouteConfig) (payload : CompletionsRequest),
          (cohereCompletions vendor config payload).metadata.inputTokens ≠ Option.some 0
          ∧ (cohereCompletions vendor config payload).metadata.inputTokens = Option.none
          ∧ (cohereCompletions vendor config payload).metadata.outputTokens = Option.none
          ∧ (cohereCompletions vendor config payload).metadata.totalTokens = Option.none := by
  intro modelName r
  exact ⟨⟨rfl, rfl, rfl⟩,
    fun vendor config payload => ⟨by simp [cohereCompletions,
      cohereCompletionsResponseToPayload], rfl, rfl, rfl⟩⟩

/-- C2 counterexample: for an empty registry (N = 0) the search-all traversal
still performs one page fetch (the client must issue a request to learn the
listing is empty), while ceil(N/P) = 0 — the fetch-count part of the claim
fails at N = 0. -/
theorem search_all_empty_registry_fetch_count_counterexample :
    (searchAllRoutes ([] : List Route) 20).2 = 1
    ∧ (List.length ([] : List Route) + 20 - 1) / 20 = 0 := by
  constructor
  · rw [(searchAllRoutes_spec ([] : List Route) 20 (by omega)).2]
    decide
  · decide

/-- C2 (amended): each page holds at most P routes, with the continuation
token absent exactly when no routes remain past the page; for positive page
size the search-all traversal returns exactly the N configured routes in
original order using max(1, ceil(N/P)) page fetches — exactly ceil(N/P)
whenever N ≥ 1, with one fetch still issued when N = 0. -/
theorem search_routes_pagination_spec (routes : List Route) (P : Nat) (hP : 0 < P) :
    (∀ tok, (searchRoutesPage routes P tok).1.length ≤ P)
    ∧ (∀ tok, (searchRoutesPage routes P tok).2 = Option.none ↔
        routes.drop (tok + P) = [])
    ∧ (searchAllRoutes routes P).1 = routes
    ∧ (searchAllRoutes routes P).2 = max 1 ((routes.length + P - 1) / P)
    ∧ (0 < routes.length →
        (searchAllRoutes routes P).2 = (routes.length + P - 1) / P) := by
  obtain ⟨h1, h2⟩ := searchAllRoutes_spec routes P hP
  refine ⟨searchRoutesPage_len_le routes P, searchRoutesPage_token_none_iff routes P,
    h1, h2, ?_⟩
  intro hN
  rw [h2]
  have h3 : 1 ≤ (routes.length + P - 1) / P := by
    rw [Nat.one_le_div_iff hP]; omega
  omega

/-- C2 witness: two configured routes with page size 1 — the traversal
returns both routes in order using 2 = ceil(2/1) page fetches. -/
theorem search_routes_pagination_spec_witness :
    (searchAllRoutes [sampleRoute1, sampleRoute2] 1).1 = [sampleRoute1, sampleRoute2]
    ∧ (searchAllRoutes [sampleRoute1, sampleRoute2] 1).2 = 2 := by
  have h := search_routes_pagination_spec [sampleRoute1, sampleRoute2] 1 (by omega)
  refine ⟨h.2.2.1, ?_⟩
  rw [h.2.2.2.1]
  decide

/-- C9: repeated search-all traversals of an unchanged (read-only after load)
registry are idempotent — the traversal leaves the registry state unmodified,
a repeated traversal returns the identical ordered route sequence, each
traversal returns the full registry in configuration order — and each
traversal terminates after exactly max(1, ceil(N/P)) page fetches. -/
theorem search_all_idempotent_on_immutable_registry (s : GatewayState) (P : Nat)
    (hP : 0 < P) :
    (searchAllStateful s P).2 = s
    ∧ (searchAllStateful ((searchAllStateful s P).2) P).1 = (searchAllStateful s P).1
    ∧ (searchAllStateful s P).1 = s.routes
    ∧ (searchAllRoutes s.routes P).2 = max 1 ((s.routes.length + P - 1) / P) := by
  obtain ⟨h1, h2⟩ := searchAllRoutes_spec s.routes P hP
  exact ⟨rfl, rfl, h1, h2⟩

/-- C9 witness: the idempotence theorem applied to a concrete two-route
registry with page size 1. -/
theorem search_all_idempotent_on_immutable_registry_witness :
    (searchAllStateful ⟨[sampleRoute1, sampleRoute2]⟩ 1).2 = ⟨[sampleRoute1, sampleRoute2]⟩
    ∧ (searchAllStateful ((searchAllStateful ⟨[sampleRoute1, sampleRoute2]⟩ 1).2) 1).1
        = (searchAllStateful ⟨[sampleRoute1, sampleRoute2]⟩ 1).1
    ∧ (searchAllStateful ⟨[sampleRoute1, sampleRoute2]⟩ 1).1
        = [sampleRoute1, sampleRoute2] := by
  have h := search_all_idempotent_on_immutable_registry ⟨[sampleRoute1, sampleRoute2]⟩ 1
    (by omega)
  exact ⟨h.1, h.2.1, h.2.2.1⟩

/-- C6: route retrieval by a name absent from the registry surfaces the HTTP
transport's native 404 not-found error unmodified — the facade returns
exactly the error object produced by raise-for-status, with status 404, not a
remapped error kind. -/
theorem get_route_missing_surfaces_transport_404 (routes : List Route) (name : String)
    (h : routes.find? (fun r => r.name == name) = Option.none) :
    ∃ e : HttpError,
      raiseForStatus (serverGetRouteHandler routes name) = Except.error e
      ∧ clientGetRoute routes name = Except.error e
      ∧ e.status = 404 := by
  refine ⟨⟨404, "Client Error: Not Found"⟩, ?_, ?_, rfl⟩
  · unfold serverGetRouteHandler
    rw [h]
    rfl
  · unfold clientGetRoute serverGetRouteHandler
    rw [h]
    rfl

/-- C6 witness: looking up a name missing from a one-route registry. -/
theorem get_route_missing_surfaces_transport_404_witness :
    ∃ e : HttpError,
      raiseForStatus (serverGetRouteHandler [sampleRoute1] ("invalid-route"))
          = Except.error e
      ∧ clientGetRoute [sampleRoute1] ("invalid-route") = Except.error e
      ∧ e.status = 404 :=
  get_route_missing_surfaces_transport_404 [sampleRoute1] ("invalid-route") (by decide)

/-- C7: gateway URI resolution follows the strict precedence explicit
argument > value stored by the setter > environment variable; a resolution
never mixes sources (its result is the value of exactly the highest-priority
defined source), and the getter returns the value last stored by the
setter. -/
theorem gateway_uri_resolution_precedence :
    (∀ (u : String) (s : GatewayUriState) (env : Env),
        resolveGatewayUri (Option.some u) s env = Except.ok u)
    ∧ (∀ (u : String) (env : Env),
        resolveGatewayUri Option.none ⟨Option.some u⟩ env = Except.ok u)
    ∧ (∀ (env : Env) (u : String), env ("MLFLOW_GATEWAY_URI") = Option.some u →
        resolveGatewayUri Option.none ⟨Option.none⟩ env = Except.ok u)
    ∧ (∀ (s s2 : GatewayUriState) (uri : String) (env : Env),
        setGatewayUri s uri = Except.ok s2 → getGatewayUri s2 env = Except.ok uri)
    ∧ (∀ (e : Option String) (s : GatewayUriState) (env : Env) (r : String),
        resolveGatewayUri e s env = Except.ok r →
          e = Option.some r
          ∨ (e = Option.none ∧ s.gatewayUri = Option.some r)
          ∨ (e = Option.none ∧ s.gatewayUri = Option.none
              ∧ env ("MLFLOW_GATEWAY_URI") = Option.some r)) := by
  refine ⟨fun u s env => rfl, fun u env => rfl, ?_, ?_, ?_⟩
  · intro env u h
    unfold resolveGatewayUri getGatewayUri
    rw [h]
  · intro s s2 uri env hset
    unfold setGatewayUri at hset
    revert hset
    cases validateGatewayUri uri with
    | error e => intro hset; exact absurd hset (by simp)
    | ok u =>
      intro hset
      cases hset
      rfl
  · intro e s env r h
    cases e with
    | some u =>
      left
      cases h
      rfl
    | none =>
      right
      unfold resolveGatewayUri getGatewayUri at h
      cases hs : s.gatewayUri with
      | some u =>
        left
        rw [hs] at h
        cases h
        exact ⟨rfl, rfl⟩
      | none =>
        right
        rw [hs] at h
        cases he : env ("MLFLOW_GATEWAY_URI") with
        | some u =>
          rw [he] at h
          cases h
          exact ⟨rfl, rfl, rfl⟩
        | none =>
          rw [he] at h
          exact absurd h (by simp)

/-- C7 witness: the precedence theorem at concrete URIs — explicit beats
stored and environment, stored beats environment, the environment is used
last, and the getter returns the value just stored. -/
theorem gateway_uri_resolution_precedence_witness :
    resolveGatewayUri (Option.some ("http://explicit.org"))
        ⟨Option.some ("http://global.org")⟩ (fun _ => Option.some ("http://env.org"))
        = Except.ok ("http://explicit.org")
    ∧ resolveGatewayUri Option.none ⟨Option.some ("http://global.org")⟩
        (fun _ => Option.some ("http://env.org")) = Except.ok ("http://global.org")
    ∧ resolveGatewayUri Option.none ⟨Option.none⟩
        (fun _ => Option.some ("http://env.org")) = Except.ok ("http://env.org")
    ∧ (∃ s2, setGatewayUri ⟨Option.none⟩ ("http://gateway.org") = Except.ok s2
        ∧ getGatewayUri s2 (fun _ => Option.none) = Except.ok ("http://gateway.org")) := by
  refine ⟨gateway_uri_resolution_precedence.1 _ _ _,
    gateway_uri_resolution_precedence.2.1 _ _,
    gateway_uri_resolution_precedence.2.2.1 _ _ rfl, ?_⟩
  refine ⟨⟨Option.some ("http://gateway.org")⟩, rfl, ?_⟩
  exact gateway_uri_resolution_precedence.2.2.2.1 ⟨Option.none⟩ _ _ _ rfl

end Mlflow
